import Mathlib

/-!
Verification of the layered snow/ice grid engine of the cosipy-deb
repository: shallow embedding of `cosipy/modules/albedo.py`,
`cosipy/cpkernel/init.py` and the irreducible-water-content reference from
`cosipy/tests/test_NODE_getter_functions.py`, together with theorems that
settle the specification claims about them.

Floating-point numbers are modelled as exact rationals; a float that may
be NaN is modelled as `Option ℚ` with `none` standing for NaN.  The
transcendental operations `np.exp` and `**` are modelled as explicit
function parameters `exp pow : ℚ → ℚ → ℚ`, constrained in theorems only by
properties the Python float operations guarantee.
-/

namespace Cosipy

/-- A float value that may be NaN: `none` models NaN, `some q` a finite value. -/
abbrev FVal := Option ℚ

/-- Embedding of `np.isnan` on a modelled float value. -/
def isNaN (v : FVal) : Bool := v.isNone

/-- Modelled from the spec: `constants.py` is not under `src/`; the
process-wide, read-only configuration constants named by the spec (§6) and
read by `albedo.py` and `init.py`. -/
structure Constants where
  initial_snowheight_constant : ℚ
  initial_glacier_height : ℚ
  initial_glacier_layer_heights : ℚ
  initial_top_density_snowpack : ℚ
  initial_bottom_density_snowpack : ℚ
  ice_density : ℚ
  temperature_bottom : ℚ
  zero_temperature : ℚ
  snow_ice_threshold : ℚ
  albedo_fresh_snow : ℚ
  albedo_firn : ℚ
  albedo_ice : ℚ
  albedo_debris : ℚ
  albedo_mod_snow_aging : ℚ
  albedo_mod_snow_depth : ℚ
  critical_snowpack_thickness : ℚ
  lejeune_weighting_coefficient : ℚ
  t_star_wet : ℚ
  t_star_dry : ℚ
  t_star_cutoff : ℚ
  t_star_K : ℚ
  dt : ℚ
  albedo_method : String

/-- Modelled from the spec: `cosipy/cpkernel/grid.py` is not under `src/`.
This records exactly the Grid state the albedo module reads (§3, §4.2): the
three fresh-snow scalar trackers, the top layer's bulk density and node
type, and the total snow height. -/
structure AGrid where
  node0_density : ℚ
  node0_ntype : ℤ
  total_snowheight : ℚ
  new_snow_height : ℚ
  new_snow_timestamp : ℚ
  old_snow_timestamp : ℚ
deriving DecidableEq

/-- Modelled from the spec: `Grid.get_fresh_snow_props` exposes the three
fresh-snow age trackers (§4.2). -/
def AGrid.get_fresh_snow_props (g : AGrid) : ℚ × ℚ × ℚ :=
  (g.new_snow_height, g.new_snow_timestamp, g.old_snow_timestamp)

/-- Modelled from the spec: `Grid.set_fresh_snow_props_to_old_props` sets
the fresh-snow props to the old-snow props; the only old-snow tracker the
spec names is `old_snow_timestamp` (§3, §4.2, §4.4), so the fresh timestamp
is set to the old timestamp. -/
def AGrid.set_fresh_snow_props_to_old_props (g : AGrid) : AGrid :=
  { g with new_snow_timestamp := g.old_snow_timestamp }

/-- Modelled from the spec: `Grid.get_node_density(0)`, the bulk density of
the top layer (§4.2); only index 0 is read by the albedo module. -/
def AGrid.get_node_density (g : AGrid) : ℚ := g.node0_density

/-- Modelled from the spec: `Grid.get_node_ntype(0)`, the node-type tag of
the top layer (0 = snow); only index 0 is read by the albedo module. -/
def AGrid.get_node_ntype (g : AGrid) : ℤ := g.node0_ntype

/-- Modelled from the spec: `Grid.get_total_snowheight` (§4.2). -/
def AGrid.get_total_snowheight (g : AGrid) : ℚ := g.total_snowheight

/-- Embedding of `get_surface_properties` from `cosipy/modules/albedo.py`.  Returns the
(possibly updated) grid together with the fresh-snow height, fresh-snow
timestamp and hours since snowfall; the in-place mutation of `GRID` is
modelled by returning the updated grid. -/
def get_surface_properties (c : Constants) (g : AGrid) : AGrid × ℚ × ℚ × ℚ :=
  let props := g.get_fresh_snow_props
  let fresh_snow_height := props.1
  let fresh_snow_timestamp := props.2.1
  let hours_since_snowfall := fresh_snow_timestamp / 3600
  if (hours_since_snowfall < c.albedo_mod_snow_aging * 24) ∧
      (fresh_snow_height ≤ 0) then
    let g1 := g.set_fresh_snow_props_to_old_props
    let props1 := g1.get_fresh_snow_props
    (g1, props1.1, props1.2.1, props1.2.1 / 3600)
  else
    (g, fresh_snow_height, fresh_snow_timestamp, hours_since_snowfall)

/-- Embedding of `get_simple_albedo` from `cosipy/modules/albedo.py`; the
parameter `exp` models `np.exp`. -/
def get_simple_albedo (c : Constants) (exp : ℚ → ℚ) (elapsed_time : ℚ) : ℚ :=
  c.albedo_firn + (c.albedo_fresh_snow - c.albedo_firn) *
    exp ((-elapsed_time) / (c.albedo_mod_snow_aging * 24))

/-- Embedding of `method_Oerlemans` from `cosipy/modules/albedo.py`; returns the updated
grid and the albedo. -/
def method_Oerlemans (c : Constants) (exp : ℚ → ℚ) (g : AGrid) : AGrid × ℚ :=
  let r := get_surface_properties c g
  let g1 := r.1
  let hours_since_snowfall := r.2.2.2
  if g1.get_node_density ≤ c.snow_ice_threshold then
    let h := g1.get_total_snowheight
    let alphaSnow := get_simple_albedo c exp hours_since_snowfall
    (g1, alphaSnow + (c.albedo_ice - alphaSnow) *
      exp ((-1 * h) / (c.albedo_mod_snow_depth / 100)))
  else
    (g1, c.albedo_ice)

/-- Embedding of `method_Bougamont` from `cosipy/modules/albedo.py`: reads the fresh-snow
timestamp directly (no fallback to old-snow props), decays `albedo_snow`
toward firn albedo with a temperature-dependent timescale, resets it to the
fresh-snow albedo when hours since snowfall is zero, then applies the depth
modulation; the ice-covered branch returns the ice albedo and leaves
`albedo_snow` untouched.  Returns `(alphaMod, albedo_snow)`. -/
def method_Bougamont (c : Constants) (exp : ℚ → ℚ) (g : AGrid)
    (surface_temperature albedo_snow : ℚ) : ℚ × ℚ :=
  let props := g.get_fresh_snow_props
  let fresh_snow_timestamp := props.2.1
  let hours_since_snowfall := fresh_snow_timestamp / 3600
  let dt_days := c.dt / 86400
  let h := g.get_total_snowheight
  if g.get_node_density ≤ c.snow_ice_threshold then
    let t_star :=
      if surface_temperature ≥ c.zero_temperature then
        c.t_star_wet
      else if surface_temperature < c.t_star_cutoff then
        c.t_star_dry + (c.zero_temperature - c.t_star_cutoff) * c.t_star_K
      else
        c.t_star_dry + (c.zero_temperature - surface_temperature) * c.t_star_K
    let decayed := albedo_snow - (albedo_snow - c.albedo_firn) / t_star * dt_days
    let albedo_snow1 := if hours_since_snowfall = 0 then c.albedo_fresh_snow else decayed
    let alphaMod := albedo_snow1 + (c.albedo_ice - albedo_snow1) *
      exp ((-1 * h) / (c.albedo_mod_snow_depth / 100))
    (alphaMod, albedo_snow1)
  else
    (c.albedo_ice, albedo_snow)

/-- Embedding of `get_albedo_weight_lejeune` from `cosipy/modules/albedo.py`;
the parameter `pow` models the Python float `**` operator. -/
def get_albedo_weight_lejeune (c : Constants) (pow : ℚ → ℚ → ℚ)
    (snow_depth : ℚ) : ℚ :=
  min 1 (pow (snow_depth / c.critical_snowpack_thickness)
    c.lejeune_weighting_coefficient)

/-- Embedding of `method_lejeune` from `cosipy/modules/albedo.py`; returns the (possibly
updated) grid and the albedo for snow-covered debris. -/
def method_lejeune (c : Constants) (exp : ℚ → ℚ) (pow : ℚ → ℚ → ℚ)
    (g : AGrid) : AGrid × ℚ :=
  if g.get_node_ntype = 0 then
    let r := get_surface_properties c g
    let g1 := r.1
    let fresh_snow_height := r.2.1
    let hours_since_snowfall := r.2.2.2
    let albedo_weight := get_albedo_weight_lejeune c pow fresh_snow_height
    let albedo_snow := get_simple_albedo c exp hours_since_snowfall
    (g1, albedo_weight * albedo_snow + (1 - albedo_weight) * c.albedo_debris)
  else
    (g, c.albedo_debris)

/-- The error message built by `updateAlbedo` for an unrecognised
`albedo_method` (the three f-string parts joined by spaces). -/
def albedoErrorMessage (m : String) : String :=
  "Albedo method = \"" ++ m ++ "\" is not allowed, must be one of " ++
    "Oerlemans98, Bougamont05, Lejeune13"

/-- Embedding of `updateAlbedo` from `cosipy/modules/albedo.py`: dispatches on
`use_debris` (from `config`) and `constants.albedo_method`; an unrecognised
method raises `ValueError`, modelled as `Except.error`.  Returns the
(possibly updated) grid, the albedo `alphaMod` and the running
`albedo_snow` state. -/
def updateAlbedo (c : Constants) (use_debris : Bool) (exp : ℚ → ℚ)
    (pow : ℚ → ℚ → ℚ) (g : AGrid) (surface_temperature albedo_snow : ℚ) :
    Except String (AGrid × ℚ × ℚ) :=
  if use_debris = true ∨ c.albedo_method = "Lejeune13" then
    let r := method_lejeune c exp pow g
    Except.ok (r.1, r.2, albedo_snow)
  else if c.albedo_method = "Oerlemans98" then
    let r := method_Oerlemans c exp g
    Except.ok (r.1, r.2, albedo_snow)
  else if c.albedo_method = "Bougamont05" then
    let r := method_Bougamont c exp g surface_temperature albedo_snow
    Except.ok (g, r.1, r.2)
  else
    Except.error (albedoErrorMessage c.albedo_method)

/-- Python `int()` applied to a float: truncation toward zero. -/
def pyInt (q : ℚ) : ℤ := if 0 ≤ q then ⌊q⌋ else -⌊-q⌋

/-- The forcing record read by `init_snowpack`: `snowheight = none` models a
`DATA` object without a `SNOWHEIGHT` field, `some v` a present field whose
value `v` may be NaN; `t2` models `DATA.T2.values[0]`. -/
structure ForcingRecord where
  snowheight : Option FVal
  t2 : ℚ

/-- The initial snow height computed at the top of `init_snowpack`
(`cosipy/cpkernel/init.py`, lines 15-20): a present NaN value falls back to
`0.0`, an absent field to `constants.initial_snowheight_constant`. -/
def initial_snowheight (c : Constants) (d : ForcingRecord) : ℚ :=
  match d.snowheight with
  | Option.none => c.initial_snowheight_constant
  | Option.some Option.none => 0
  | Option.some (Option.some q) => q

/-- The layer arrays produced by `init_snowpack`, in the order they are
passed to the `Grid` constructor. -/
structure InitColumn where
  layer_heights : List ℚ
  layer_densities : List ℚ
  layer_T : List ℚ
  layer_liquid_water : List ℚ
deriving DecidableEq

/-- Embedding of `init_snowpack` from `cosipy/cpkernel/init.py`: builds the initial
column.  If the initial snow height is positive, up to 5 snow layers with a
linear density and temperature gradient are built and the glacier-ice
section is appended; otherwise the column is ice-only. -/
def init_snowpack (c : Constants) (d : ForcingRecord) : InitColumn :=
  let ish := initial_snowheight c d
  let temperature_top := min d.t2 (273.16 : ℚ)
  if ish > 0 then
    let optimal_height : ℚ := 0.1
    let nsnow : ℕ := (pyInt (min (ish / optimal_height) 5)).toNat
    let dT := (temperature_top - c.temperature_bottom) /
      (ish + c.initial_glacier_height)
    let snow :=
      if nsnow = 0 then
        ([ish], [c.initial_top_density_snowpack], [temperature_top], [(0 : ℚ)])
      else
        let drho := (c.initial_top_density_snowpack -
          c.initial_bottom_density_snowpack) / ish
        (List.replicate nsnow (ish / nsnow),
         (List.range nsnow).map (fun i =>
           c.initial_top_density_snowpack - drho * (ish / nsnow) * (i + 1)),
         (List.range nsnow).map (fun i =>
           temperature_top - dT * (ish / nsnow) * (i + 1)),
         List.replicate nsnow (0 : ℚ))
    let nice : ℕ := (pyInt (c.initial_glacier_height /
      c.initial_glacier_layer_heights)).toNat
    let lastT := snow.2.2.1.getLast?.getD 0
    { layer_heights := snow.1 ++
        List.replicate nice c.initial_glacier_layer_heights,
      layer_densities := snow.2.1 ++ List.replicate nice c.ice_density,
      layer_T := snow.2.2.1 ++ (List.range nice).map (fun i =>
        lastT - dT * c.initial_glacier_layer_heights * (i + 1)),
      layer_liquid_water := snow.2.2.2 ++ List.replicate nice (0 : ℚ) }
  else
    let nice : ℕ := (pyInt (c.initial_glacier_height /
      c.initial_glacier_layer_heights)).toNat
    let dT := (temperature_top - c.temperature_bottom) / c.initial_glacier_height
    { layer_heights := List.replicate nice c.initial_glacier_layer_heights,
      layer_densities := List.replicate nice c.ice_density,
      layer_T := (List.range nice).map (fun i =>
        temperature_top - dT * c.initial_glacier_layer_heights * (i + 1)),
      layer_liquid_water := List.replicate nice (0 : ℚ) }

/-- The restart snapshot read by `load_snowpack`: the per-layer float
arrays (entries may be NaN) and the three scalar trackers. -/
structure RestartSnapshot where
  nlayers : ℕ
  layer_height : List FVal
  layer_rho : List FVal
  layer_t : List FVal
  layer_lwc : List FVal
  layer_if : List FVal
  new_snow_height : ℚ
  new_snow_timestamp : ℚ
  old_snow_timestamp : ℚ

/-- The grid state reconstructed by `load_snowpack` (and printed whole by
`GRID.grid_info_screen()` on failure). -/
structure RestartGrid where
  layer_heights : List FVal
  layer_rho : List FVal
  layer_T : List FVal
  layer_lwc : List FVal
  layer_if : List FVal
  new_snow_height : ℚ
  new_snow_timestamp : ℚ
  old_snow_timestamp : ℚ
deriving DecidableEq

/-- The grid built by `load_snowpack` from the arrays truncated to the
stated layer count. -/
def restartGridOf (s : RestartSnapshot) : RestartGrid :=
  { layer_heights := s.layer_height.take s.nlayers,
    layer_rho := s.layer_rho.take s.nlayers,
    layer_T := s.layer_t.take s.nlayers,
    layer_lwc := s.layer_lwc.take s.nlayers,
    layer_if := s.layer_if.take s.nlayers,
    new_snow_height := s.new_snow_height,
    new_snow_timestamp := s.new_snow_timestamp,
    old_snow_timestamp := s.old_snow_timestamp }

/-- Embedding of `load_snowpack` from `cosipy/cpkernel/init.py`: reconstructs a grid
from the truncated snapshot arrays; if any restored temperature is NaN it
prints the full grid state and terminates the process (`sys.exit(1)`),
modelled as `Except.error` carrying the emitted grid state. -/
def load_snowpack (s : RestartSnapshot) : Except RestartGrid RestartGrid :=
  let g := restartGridOf s
  if (s.layer_t.take s.nlayers).any isNaN then
    Except.error g
  else
    Except.ok g

/-- Embedding of `calculate_irreducible_water_content` from
`cosipy/tests/test_NODE_getter_functions.py`: the repository's reference
definition of irreducible water content as a function of ice fraction. -/
def calculate_irreducible_water_content (current_ice_fraction : ℚ) : ℚ :=
  if current_ice_fraction ≤ 0.23 then
    0.0264 + 0.0099 * ((1 - current_ice_fraction) / current_ice_fraction)
  else if (current_ice_fraction > 0.23) ∧ (current_ice_fraction ≤ 0.812) then
    0.08 - 0.1023 * (current_ice_fraction - 0.03)
  else
    0

/-- Modelled from the spec: `cosipy/cpkernel/node.py` is not under `src/`.
The Layer getter for irreducible water content, which the spec describes as
a piecewise-linear function of ice fraction with breakpoints at 0.23 and
0.812 (§4.1) and which the repository's test
`test_node_get_layer_irreducible_water_content` asserts equals the in-src
reference `calculate_irreducible_water_content`. -/
def get_layer_irreducible_water_content (ice_fraction : ℚ) : ℚ :=
  if ice_fraction ≤ 0.23 then
    0.0264 + 0.0099 * ((1 - ice_fraction) / ice_fraction)
  else if (ice_fraction > 0.23) ∧ (ice_fraction ≤ 0.812) then
    0.08 - 0.1023 * (ice_fraction - 0.03)
  else
    0

/-- The piecewise formula exactly as the specification claim states it, for
comparison with the code's definitions. -/
def irreducibleWaterContentClaim (φ : ℚ) : ℚ :=
  if φ ≤ 0.23 then 0.0264 + 0.0099 * (1 - φ) / φ
  else if φ ≤ 0.812 then 0.08 - 0.1023 * (φ - 0.03)
  else 0

/-! Concrete fixtures for witnesses and counterexamples. -/

/-- A concrete configuration used by the witnesses; the values follow the
defaults documented for the repository. -/
def cEx : Constants where
  initial_snowheight_constant := 0.3
  initial_glacier_height := 40
  initial_glacier_layer_heights := 1
  initial_top_density_snowpack := 300
  initial_bottom_density_snowpack := 600
  ice_density := 917
  temperature_bottom := 270
  zero_temperature := 273.16
  snow_ice_threshold := 900
  albedo_fresh_snow := 0.85
  albedo_firn := 0.55
  albedo_ice := 0.3
  albedo_debris := 0.2
  albedo_mod_snow_aging := 6
  albedo_mod_snow_depth := 8
  critical_snowpack_thickness := 0.1
  lejeune_weighting_coefficient := 1
  t_star_wet := 10
  t_star_dry := 30
  t_star_cutoff := 263
  t_star_K := 7
  dt := 3600
  albedo_method := "Bougamont05"

/-- The example configuration with an unrecognised albedo method. -/
def cBad : Constants := { cEx with albedo_method := "Foo" }

/-- A snow-topped grid whose fresh-snow timestamp is zero. -/
def gEx : AGrid where
  node0_density := 200
  node0_ntype := 0
  total_snowheight := 1
  new_snow_height := 0.05
  new_snow_timestamp := 0
  old_snow_timestamp := 7200

/-- An ice-topped grid (top-layer density above the snow/ice threshold). -/
def gIce : AGrid := { gEx with node0_density := 950, new_snow_timestamp := 3600 }

/-- A grid whose fresh-snow layer has vanished (height 0) while its
timestamp is still inside the aging window. -/
def gOld : AGrid :=
  { gEx with
    new_snow_height := 0
    new_snow_timestamp := 7200
    old_snow_timestamp := 86400 }

/-- A forcing record whose snow-height field is present but NaN. -/
def dNaN : ForcingRecord := { snowheight := Option.some Option.none, t2 := 270 }

/-- A forcing record without a snow-height field. -/
def dAbsent : ForcingRecord := { snowheight := Option.none, t2 := 270 }

/-- A restart snapshot whose second restored temperature is NaN. -/
def sNaN : RestartSnapshot where
  nlayers := 2
  layer_height := [Option.some 0.1, Option.some 0.2]
  layer_rho := [Option.some 250, Option.some 917]
  layer_t := [Option.some 270, Option.none]
  layer_lwc := [Option.some 0, Option.some 0]
  layer_if := [Option.some 0.3, Option.some 0.9]
  new_snow_height := 0
  new_snow_timestamp := 0
  old_snow_timestamp := 3600

/-! Claim theorems. -/

/-- C3: for every prior `albedo_snow` value and every surface temperature,
if the grid's fresh-snow timestamp is zero (hours since snowfall = 0) and
the top-layer density is at or below the snow/ice threshold,
`method_Bougamont` returns an updated `albedo_snow` exactly equal to the
constant `albedo_fresh_snow`, regardless of the decayed value passed in. -/
theorem method_Bougamont_resets_on_fresh_snowfall (c : Constants)
    (exp : ℚ → ℚ) (g : AGrid) (surface_temperature albedo_snow : ℚ)
    (hts : g.new_snow_timestamp = 0)
    (hρ : g.node0_density ≤ c.snow_ice_threshold) :
    (method_Bougamont c exp g surface_temperature albedo_snow).2 =
      c.albedo_fresh_snow := by
  simp [method_Bougamont, AGrid.get_fresh_snow_props, AGrid.get_node_density,
    AGrid.get_total_snowheight, hts, hρ]

/-- Witness for C3 at a concrete configuration, grid and decayed value. -/
theorem method_Bougamont_resets_on_fresh_snowfall_witness :
    (method_Bougamont cEx (fun x => x) gEx 270 0.4).2 = cEx.albedo_fresh_snow :=
  method_Bougamont_resets_on_fresh_snowfall cEx (fun x => x) gEx 270 0.4
    (by decide) (by decide)

/-- C10: for every input `albedo_snow` value and surface temperature, if
the top-layer density exceeds the snow/ice threshold, `method_Bougamont`
returns the ice albedo and returns the `albedo_snow` state unchanged from
its input: neither decay nor reset is applied in the ice-covered case. -/
theorem method_Bougamont_ice_frame (c : Constants) (exp : ℚ → ℚ) (g : AGrid)
    (surface_temperature albedo_snow : ℚ)
    (hρ : c.snow_ice_threshold < g.node0_density) :
    method_Bougamont c exp g surface_temperature albedo_snow =
      (c.albedo_ice, albedo_snow) := by
  simp [method_Bougamont, AGrid.get_node_density, hρ.not_le]

/-- Witness for C10 at a concrete ice-topped grid. -/
theorem method_Bougamont_ice_frame_witness :
    method_Bougamont cEx (fun x => x) gIce 270 0.4 = (cEx.albedo_ice, 0.4) :=
  method_Bougamont_ice_frame cEx (fun x => x) gIce 270 0.4 (by decide)

/-- C5: for every grid state and every configured `albedo_method` value,
whenever debris mode is active, `updateAlbedo` computes the albedo via the
Lejeune13 method, overriding the configured method selector. -/
theorem updateAlbedo_debris_override (c : Constants) (exp : ℚ → ℚ)
    (pow : ℚ → ℚ → ℚ) (g : AGrid) (surface_temperature albedo_snow : ℚ) :
    updateAlbedo c true exp pow g surface_temperature albedo_snow =
      Except.ok ((method_lejeune c exp pow g).1,
        (method_lejeune c exp pow g).2, albedo_snow) := by
  simp [updateAlbedo]

/-- C6: if debris mode is off and the configured `albedo_method` is none of
Oerlemans98, Bougamont05 or Lejeune13, `updateAlbedo` fails with the
configuration error message and no albedo value is produced, for every grid
state, surface temperature and `albedo_snow` value. -/
theorem updateAlbedo_invalid_method (c : Constants) (exp : ℚ → ℚ)
    (pow : ℚ → ℚ → ℚ) (g : AGrid) (surface_temperature albedo_snow : ℚ)
    (h1 : c.albedo_method ≠ "Oerlemans98")
    (h2 : c.albedo_method ≠ "Bougamont05")
    (h3 : c.albedo_method ≠ "Lejeune13") :
    updateAlbedo c false exp pow g surface_temperature albedo_snow =
      Except.error (albedoErrorMessage c.albedo_method) := by
  simp [updateAlbedo, h1, h2, h3]

/-- Witness for C6 at a concrete configuration with method `"Foo"`. -/
theorem updateAlbedo_invalid_method_witness :
    updateAlbedo cBad false (fun x => x) (fun x _ => x) gEx 270 0.4 =
      Except.error (albedoErrorMessage cBad.albedo_method) :=
  updateAlbedo_invalid_method cBad (fun x => x) (fun x _ => x) gEx 270 0.4
    (by decide) (by decide) (by decide)

/-- C8: for every grid whose top layer is snow-type (node type 0) and whose
fresh-snow height is 0, and every `pow` consistent with Python float power
at the point used (`0 ** lejeune_weighting_coefficient = 0`), the Lejeune13
method computes weight `min 1 ((0 / critical_snowpack_thickness) ^ k) = 0`
and returns exactly the fixed debris albedo constant. -/
theorem method_lejeune_bare_debris (c : Constants) (exp : ℚ → ℚ)
    (pow : ℚ → ℚ → ℚ) (g : AGrid)
    (hn : g.node0_ntype = 0) (hh : g.new_snow_height = 0)
    (hpow : pow 0 c.lejeune_weighting_coefficient = 0) :
    get_albedo_weight_lejeune c pow g.new_snow_height = 0 ∧
    (method_lejeune c exp pow g).2 = c.albedo_debris := by
  have hw : get_albedo_weight_lejeune c pow g.new_snow_height = 0 := by
    simp [get_albedo_weight_lejeune, hh, hpow]
  refine ⟨hw, ?_⟩
  simp only [method_lejeune, get_surface_properties, AGrid.get_node_ntype,
    AGrid.get_fresh_snow_props, AGrid.set_fresh_snow_props_to_old_props, hn,
    if_true]
  split
  · simp only [get_albedo_weight_lejeune, hh, zero_div, hpow] at hw ⊢
    simp [hw]
  · simp only [get_albedo_weight_lejeune, hh, zero_div, hpow] at hw ⊢
    simp [hw]

/-- Witness for C8 at a concrete bare-debris grid and a concrete power
function agreeing with Python float power. -/
theorem method_lejeune_bare_debris_witness :
    get_albedo_weight_lejeune cEx
        (fun b e => if b = 0 ∧ e ≠ 0 then 0 else 1) gOld.new_snow_height = 0 ∧
    (method_lejeune cEx (fun x => x)
        (fun b e => if b = 0 ∧ e ≠ 0 then 0 else 1) gOld).2 =
      cEx.albedo_debris :=
  method_lejeune_bare_debris cEx (fun x => x)
    (fun b e => if b = 0 ∧ e ≠ 0 then 0 else 1) gOld
    (by decide) (by decide) (by decide)

/-- C4: for every grid state, `get_surface_properties` returns hours since
snowfall computed from the fresh-snow timestamp, except when the fresh-snow
height is at most 0 and the fresh-snow timestamp is still inside the aging
window (timestamp/3600 < albedo_mod_snow_aging × 24): in that case it sets
the fresh-snow props to the old-snow props and returns hours computed from
the grid's older snow timestamp; otherwise the grid's fresh-snow trackers
are left unchanged. -/
theorem get_surface_properties_spec (c : Constants) (g : AGrid) :
    ((g.new_snow_timestamp / 3600 < c.albedo_mod_snow_aging * 24 ∧
        g.new_snow_height ≤ 0) →
      get_surface_properties c g =
        (g.set_fresh_snow_props_to_old_props, g.new_snow_height,
          g.old_snow_timestamp, g.old_snow_timestamp / 3600)) ∧
    (¬(g.new_snow_timestamp / 3600 < c.albedo_mod_snow_aging * 24 ∧
        g.new_snow_height ≤ 0) →
      get_surface_properties c g =
        (g, g.new_snow_height, g.new_snow_timestamp,
          g.new_snow_timestamp / 3600)) := by
  constructor <;> intro h <;>
    simp [get_surface_properties, AGrid.get_fresh_snow_props,
      AGrid.set_fresh_snow_props_to_old_props, h]

/-- Witness for C4 at a concrete grid taking the fallback branch. -/
theorem get_surface_properties_spec_witness :
    get_surface_properties cEx gOld =
      (gOld.set_fresh_snow_props_to_old_props, gOld.new_snow_height,
        gOld.old_snow_timestamp, gOld.old_snow_timestamp / 3600) :=
  (get_surface_properties_spec cEx gOld).1 (by norm_num [gOld, gEx, cEx])

/-- C1 counterexample: with the configured default 0.3 and a forcing record
whose snow-height field is present but NaN, `init_snowpack` uses 0.0 as the
initial snow height, not the configured constant
`initial_snowheight_constant`. -/
theorem initial_snowheight_nan_counterexample :
    initial_snowheight cEx dNaN ≠ cEx.initial_snowheight_constant := by
  norm_num [initial_snowheight, dNaN, cEx]

/-- C1 (amended): `init_snowpack` defaults the initial snow height to the
configured constant `initial_snowheight_constant` when the record's
snow-height field is absent, but to 0.0 when the field is present and
not-a-number; the two cases use different defaults. -/
theorem initial_snowheight_defaults (c : Constants) (d : ForcingRecord) :
    (d.snowheight = Option.none →
      initial_snowheight c d = c.initial_snowheight_constant) ∧
    (d.snowheight = Option.some Option.none →
      initial_snowheight c d = 0) := by
  constructor <;> intro h <;> unfold initial_snowheight <;> rw [h]

/-- Witness for the amended C1 at concrete forcing records. -/
theorem initial_snowheight_defaults_witness :
    initial_snowheight cEx dAbsent = cEx.initial_snowheight_constant ∧
      initial_snowheight cEx dNaN = 0 :=
  ⟨(initial_snowheight_defaults cEx dAbsent).1 rfl,
   (initial_snowheight_defaults cEx dNaN).2 rfl⟩

/-- C2: for every restart snapshot, if any restored temperature value (the
temperature array truncated to the stated layer count) is NaN then
`load_snowpack` terminates processing, emitting the full reconstructed grid
state for diagnosis and returning no usable grid; with all-finite restored
temperatures it returns the reconstructed grid. -/
theorem load_snowpack_nan_terminates (s : RestartSnapshot) :
    ((s.layer_t.take s.nlayers).any isNaN = true →
      load_snowpack s = Except.error (restartGridOf s)) ∧
    ((s.layer_t.take s.nlayers).any isNaN = false →
      load_snowpack s = Except.ok (restartGridOf s)) := by
  constructor <;> intro h <;> simp [load_snowpack, h]

/-- Witness for C2 at a concrete snapshot with a NaN temperature. -/
theorem load_snowpack_nan_terminates_witness :
    load_snowpack sNaN = Except.error (restartGridOf sNaN) :=
  (load_snowpack_nan_terminates sNaN).1 (by decide)

/-- C7: for every forcing record yielding initial snow height 0,
`init_snowpack` builds an ice-only column: every layer density equals
`ice_density`, every liquid water content is zero, no layer is classified
as snow (density at or below the snow/ice threshold), the layer count is
the truncated quotient of the configured glacier height by the configured
glacier layer height, and the total height is that count times the
configured glacier layer height. -/
theorem init_snowpack_ice_only (c : Constants) (d : ForcingRecord)
    (h0 : initial_snowheight c d = 0)
    (hH : 0 ≤ c.initial_glacier_height)
    (hdl : 0 < c.initial_glacier_layer_heights)
    (hthr : c.snow_ice_threshold < c.ice_density) :
    (∀ ρ ∈ (init_snowpack c d).layer_densities, ρ = c.ice_density) ∧
    (∀ w ∈ (init_snowpack c d).layer_liquid_water, w = 0) ∧
    (init_snowpack c d).layer_densities.countP
        (fun ρ => decide (ρ ≤ c.snow_ice_threshold)) = 0 ∧
    (init_snowpack c d).layer_heights.length =
      ⌊c.initial_glacier_height / c.initial_glacier_layer_heights⌋₊ ∧
    (init_snowpack c d).layer_heights.sum =
      (⌊c.initial_glacier_height / c.initial_glacier_layer_heights⌋₊ : ℚ) *
        c.initial_glacier_layer_heights := by
  have hq : 0 ≤ c.initial_glacier_height / c.initial_glacier_layer_heights :=
    div_nonneg hH hdl.le
  have hn : (pyInt (c.initial_glacier_height /
      c.initial_glacier_layer_heights)).toNat =
      ⌊c.initial_glacier_height / c.initial_glacier_layer_heights⌋₊ := by
    rw [pyInt, if_pos hq, Int.floor_toNat]
  refine ⟨?_, ?_, ?_, ?_, ?_⟩ <;>
    simp [init_snowpack, h0, hn, List.mem_replicate, List.countP_eq_zero,
      List.sum_replicate, decide_eq_true_eq, hthr.not_le, nsmul_eq_mul] <;>
    exact fun _ => hthr

/-- Witness for C7 at the concrete configuration (40 m of glacier in 1 m
layers) and a NaN snow-height record. -/
theorem init_snowpack_ice_only_witness :
    (∀ ρ ∈ (init_snowpack cEx dNaN).layer_densities, ρ = cEx.ice_density) ∧
    (∀ w ∈ (init_snowpack cEx dNaN).layer_liquid_water, w = 0) ∧
    (init_snowpack cEx dNaN).layer_densities.countP
        (fun ρ => decide (ρ ≤ cEx.snow_ice_threshold)) = 0 ∧
    (init_snowpack cEx dNaN).layer_heights.length =
      ⌊cEx.initial_glacier_height / cEx.initial_glacier_layer_heights⌋₊ ∧
    (init_snowpack cEx dNaN).layer_heights.sum =
      (⌊cEx.initial_glacier_height / cEx.initial_glacier_layer_heights⌋₊ : ℚ) *
        cEx.initial_glacier_layer_heights :=
  init_snowpack_ice_only cEx dNaN (by decide) (by decide) (by decide)
    (by decide)

/-- C9: for every ice fraction in (0, 1], the layer's irreducible water
content getter agrees with the repository's reference definition, and the
reference is exactly the piecewise-linear function of ice fraction with
breakpoints at 0.23 and 0.812 stated by the specification. -/
theorem irreducible_water_content_matches (φ : ℚ) (_hpos : 0 < φ) (_hle : φ ≤ 1) :
    get_layer_irreducible_water_content φ =
      calculate_irreducible_water_content φ ∧
    calculate_irreducible_water_content φ = irreducibleWaterContentClaim φ := by
  refine ⟨rfl, ?_⟩
  by_cases hA : φ ≤ (0.23 : ℚ)
  · simp only [calculate_irreducible_water_content,
      irreducibleWaterContentClaim, if_pos hA]
    ring
  · by_cases hB : φ ≤ (0.812 : ℚ)
    · simp [calculate_irreducible_water_content, irreducibleWaterContentClaim,
        hA, hB, not_le.mp hA]
    · simp [calculate_irreducible_water_content, irreducibleWaterContentClaim,
        hA, hB]

/-- Witness for C9 at ice fraction one half. -/
theorem irreducible_water_content_matches_witness :
    get_layer_irreducible_water_content (1 / 2) =
      calculate_irreducible_water_content (1 / 2) ∧
    calculate_irreducible_water_content (1 / 2) =
      irreducibleWaterContentClaim (1 / 2) :=
  irreducible_water_content_matches (1 / 2) (by norm_num) (by norm_num)

end Cosipy
